import Mathlib

/-
  Verification of the argparse matching engine (JS implementation) against its
  natural-language specification.  Shallow embedding: each definition below
  translates the corresponding JavaScript function from src/lib, preserving
  JavaScript semantics (truthiness, `Array.prototype.join` defaulting to a
  comma separator, loop conditions exactly as written in the source).
-/

namespace Argparse

/-- A JavaScript value, as far as the engine's truthiness checks need it. -/
inductive JsVal where
  | num (n : Int)
  | str (s : String)
  | bool (b : Bool)
  | null
  | undef
  | arr (elems : List String)
deriving DecidableEq, Repr

/-- JavaScript truthiness: 0, "", false, null and undefined are falsy;
every array (empty or not) is truthy because arrays are objects. -/
def jsTruthy : JsVal → Bool
  | .num n => decide (n ≠ 0)
  | .str s => decide (s ≠ "")
  | .bool b => b
  | .null => false
  | .undef => false
  | .arr _ => true

/-- The `nargs` alphabet of the implementation: `null` (default single
argument), `?`, `*`, `+`, REMAINDER, PARSER, or an integer count. -/
inductive Nargs where
  | null
  | optional
  | zeroOrMore
  | oneOrMore
  | remainder
  | parserTail
  | num (n : Nat)
deriving DecidableEq, Repr

/-! ### C1: `_match_arguments_partial` (src/lib/ArgumentParser.js lines 565-582)

The source reads

    for (let i = actions.length; i === 0; i--) {
      let actions_slice = actions.slice(0, i);
      let pattern = actions_slice.map(action => this._get_nargs_pattern(action)).join();
      let match = new RegExp(pattern).exec(arg_strings_pattern);
      if (match) {
        result.concat(match.map(string => string.length));
        break;
      }
    }
    return result;

The loop guard is `i === 0`, so the body runs only when the action list is
empty, and `result.concat(...)` returns a fresh array that is dropped, so
`result` stays `[]`.  The regex attempt is abstracted as a parameter
`tryMatch slice pat` (the outcome of `new RegExp(...).exec(...)` on the
fragment concatenation of `slice`); the theorems below hold for every such
matcher, so nothing depends on how the regex engine itself behaves. -/

/-- The `for (let i = actions.length; i === 0; i--)` loop, with `i`
carried as an integer exactly as in the source and fuel for termination. -/
def matchShorteningLoop (tryMatch : List Nargs → List Char → Option (List Nat))
    (actions : List Nargs) (pat : List Char) :
    Nat → Int → List Nat → List Nat
  | 0, _, result => result
  | fuel+1, i, result =>
    if i = 0 then
      match tryMatch (actions.take i.toNat) pat with
      | some _ => result
      | none => matchShorteningLoop tryMatch actions pat fuel (i-1) result
    else result

/-- `_match_arguments_partial(actions, arg_strings_pattern)`. -/
def _match_arguments_partial (tryMatch : List Nargs → List Char → Option (List Nat))
    (actions : List Nargs) (pat : List Char) : List Nat :=
  matchShorteningLoop tryMatch actions pat (actions.length + 2) (actions.length) []

/-- C1: the greedy positional-group matcher never consumes anything.  For every
matcher oracle, every ordered list of outstanding positional actions and every
pattern slice, `_match_arguments_partial` returns the empty count list: the
loop guard `i === 0` prevents any match attempt on a non-empty action list
(and on the empty list the concat result is dropped), so the claimed
"try all fragments, then drop the last action and retry" behaviour never
happens and zero positionals are consumed in every round. -/
theorem match_arguments_consume_nothing
    (tryMatch : List Nargs → List Char → Option (List Nat))
    (actions : List Nargs) (pat : List Char) :
    _match_arguments_partial tryMatch actions pat = [] := by
  cases actions with
  | nil =>
      simp only [ _match_arguments_partial, List.length_nil, matchShorteningLoop]
      cases tryMatch ([].take (Int.toNat 0)) pat with
      | some m => simp
      | none => simp [matchShorteningLoop]
  | cons a as =>
      simp only [ _match_arguments_partial, List.length_cons, matchShorteningLoop]
      rw [if_neg (by omega)]

/-! ### C2: token classification and `--` (src/lib/ArgumentParser.js lines 260-285)

The source reads

    arg_strings.forEach((arg_string, index) => {
      if (arg_string === '--') {
        arg_string_pattern_parts.push('-');
        arg_strings.forEach(arg_string => {
          arg_string_pattern_parts.push('A');
        });
      } else {
        let option_tuple = this._parse_optional(arg_string);
        ...
        arg_string_pattern_parts.push(pattern);
      }
    });
    let arg_strings_pattern = arg_string_pattern_parts.join();

On a `--` token the inner `forEach` walks the WHOLE `arg_strings` array (one
`'A'` per token of the full list, including `--` itself and tokens before it),
the outer `forEach` keeps classifying the following tokens normally, and
`join()` without an argument joins with `","`.  The class assigned by
`_parse_optional` to a non-`--` token is abstracted as `po tok` ('O' or 'A'). -/

/-- The `arg_string_pattern_parts` array built by the classification loop. -/
def argStringPatternParts (po : String → Char) (arg_strings : List String) : List Char :=
  arg_strings.foldl
    (fun parts tok =>
      if tok = "--" then
        (parts ++ ['-']) ++ arg_strings.map (fun _ => 'A')
      else
        parts ++ [po tok])
    []

/-- `arg_strings_pattern = arg_string_pattern_parts.join()` (comma separator). -/
def argStringsPattern (po : String → Char) (arg_strings : List String) : String :=
  String.intercalate "," ((argStringPatternParts po arg_strings).map (fun c => String.mk [c]))

/-- C2: on the one-token input `["--"]` the classification produces the
pattern `"-,A"` — an extra `'A'` for the `--` token itself and a comma from
`join()` — and not `"-"`, the one-class-character-per-token string the claim
describes; so the Token Pattern is not the concatenation of one class
character per input token. -/
theorem pattern_at_separator_mismatch :
    argStringsPattern (fun _ => 'A') ["--"] = "-,A" ∧ ("-,A" : String) ≠ "-" := by
  exact ⟨rfl, by decide⟩

/-! ### C3: mutually-exclusive groups (src/lib/ArgumentParser.js lines 246-315
and 493-506)

The required-group post-check reads

    this._mutually_exclusive_groups.forEach(group => {
      if (group.required) {
        group._group_actions.forEach(action => {
          if (!seen_non_default_actions.has(action)) {
            let names = ...;
            this.error(`one of the arguments ... is required`);
          }
        });
      }
    });

`this.error` terminates the parse, so the first member of a required group
that is NOT in `seen_non_default_actions` produces the error — even when
another member of the same group did fire. -/

/-- One mutually-exclusive group: its required flag and the ids of its member
actions in registration order. -/
structure MutexGroup where
  required : Bool
  members : List Nat
deriving DecidableEq, Repr

/-- The required-group post-check of `_parse_known_args`: the first
`this.error` message it raises, if any. -/
def requiredGroupCheck (groups : List MutexGroup) (seen_non_default : List Nat) :
    Option String :=
  groups.findSome? fun g =>
    if g.required then
      g.members.findSome? fun a =>
        if seen_non_default.contains a then none
        else some "one of the arguments is required"
    else none

/-- C3: with a required mutually-exclusive group over actions 0 and 1 in
which exactly one member (action 0) fired as non-default, the post-check
still raises the "one of the arguments ... is required" error — the parse
does not succeed, contradicting the claim that parsing exactly one member
succeeds. -/
theorem required_group_errors_with_one_seen :
    requiredGroupCheck [⟨true, [0, 1]⟩] [0] = some "one of the arguments is required" := by
  rfl

/-! ### C4: strict vs lenient parsing (src/lib/ArgumentParser.js lines 189-197)

    parse_args(args = null, namespace = null) {
      let argv;
      [args, argv] = this.parse_known_args(args, namespace);
      if (argv) {
        this.error(`unrecognized arguments: ...`);
      }
      return args;
    }

`argv` is the extras array returned by `parse_known_args`; `if (argv)` tests
JavaScript truthiness of that array, and every array is truthy. -/

/-- The strict-mode gate of `parse_args`, applied to the extras list that
`parse_known_args` returned. -/
def parseArgsCheck (argv : List String) : Except String Unit :=
  if jsTruthy (.arr argv) then
    .error ("unrecognized arguments: " ++ String.intercalate " " argv)
  else
    .ok ()

/-- C4: strict parsing raises "unrecognized arguments" even when the extras
list is empty, because the emptiness test `if (argv)` checks array truthiness
instead of length — refuting the claim that strict parsing fails if and only
if the extras list is non-empty. -/
theorem parse_args_errors_on_empty_extras :
    parseArgsCheck [] = .error "unrecognized arguments: " := by
  rfl

/-! ### C5: long-option abbreviation (src/lib/ArgumentParser.js lines 584-643)

    let option_tuples = this._get_option_tuples(arg_string);
    if (option_tuples.length) {
      ...
      this.error(`ambiguous option: ...`);
    } else if (option_tuples.length === 1) {
      return option_tuples.pop();
    }

`if (option_tuples.length)` is true for ANY non-empty candidate list, so a
single unambiguous match raises the "ambiguous option" error and the
`length === 1` branch is unreachable. -/

/-- Outcome of the candidate dispatch in `_parse_optional`. -/
inductive AbbrevOutcome where
  | ambiguous (candidates : List String)
  | resolved (candidate : String)
  | fallthrough
deriving DecidableEq, Repr

/-- The candidate dispatch of `_parse_optional` on the collected option
tuples (identified here by their full option strings). -/
def resolveCandidates (option_tuples : List String) : AbbrevOutcome :=
  if option_tuples.length ≠ 0 then .ambiguous option_tuples
  else if option_tuples.length = 1 then .resolved (option_tuples.headD "")
  else .fallthrough

/-- C5: a prefix with exactly one candidate long option is reported as an
"ambiguous option" error, and no candidate list whatsoever can reach the
resolved outcome — the exactly-one-match branch is dead code, refuting the
claim that a unique prefix resolves to the registered option's action. -/
theorem single_candidate_reported_ambiguous :
    resolveCandidates ["--foo"] = .ambiguous ["--foo"]
    ∧ ∀ (ts : List String) (t : String), resolveCandidates ts ≠ .resolved t := by
  refine ⟨rfl, ?_⟩
  intro ts t
  cases ts with
  | nil => simp [resolveCandidates]
  | cons x xs => simp [resolveCandidates]

/-! ### C6: derived `required` for positionals
(src/lib/_ActionsContainer.js lines 320-336)

    if (
        ![ OPTIONAL, ZERO_OR_MORE ].includes(kwargs.nargs) ||
        kwargs.nargs === ZERO_OR_MORE && !kwargs.default
    ) {
      kwargs.required = true;
    }

`&&` binds tighter than `||`; `!kwargs.default` is a truthiness test, and an
absent default is `undefined` (falsy). -/

/-- The `required` flag `_get_positional_kwargs` derives for a positional:
`dflt` is `kwargs.default` (`JsVal.undef` when no default was given). -/
def positionalRequired (nargs : Nargs) (dflt : JsVal) : Bool :=
  !(decide (nargs = .optional) || decide (nargs = .zeroOrMore))
    || (decide (nargs = .zeroOrMore) && !jsTruthy dflt)

/-- The derived flag as claim C6 words it: true unless `nargs` is
NONE_OR_ONE or (`nargs` is ZERO_OR_MORE and no default was given). -/
def positionalRequiredClaim (nargs : Nargs) (dflt : JsVal) : Bool :=
  !(decide (nargs = .optional) || (decide (nargs = .zeroOrMore) && !jsTruthy dflt))

/-- C6 counterexample: for a ZERO_OR_MORE positional with no default the code
derives `required = true`, while the claim's condition says such a positional
comes out non-required; the two disagree at this concrete input. -/
theorem positional_required_counterexample :
    positionalRequired .zeroOrMore .undef = true
    ∧ positionalRequiredClaim .zeroOrMore .undef = false := by
  decide

/-- C6 amended: a positional's derived `required` flag is true unless its
`nargs` is NONE_OR_ONE or its `nargs` is ZERO_OR_MORE with a (truthy)
default supplied. -/
theorem positional_required_characterization (nargs : Nargs) (dflt : JsVal) :
    positionalRequired nargs dflt
      = !(decide (nargs = .optional) || (decide (nargs = .zeroOrMore) && jsTruthy dflt)) := by
  cases nargs <;> cases h : jsTruthy dflt <;> simp [positionalRequired, h]

/-! ### C7: type conversion and choice validation
(src/lib/ArgumentParser.js lines 797-819)

    try {
      result = type_func(arg_string);
    } catch ($e) {
      throw new ArgumentError(`invalid ... value: ...`);
    }

    if (action.choices && !action.choices.includes(value)) {
      throw new ArgumentError(`invalid choice: ...`);
    }

A type function is an arbitrary possibly-failing synchronous callback,
modelled as `String → Except Unit V` (`.error` = the function threw).
`action.choices` is `none` when `null`; any array, even empty, is truthy. -/

/-- Structured parse errors raised by value conversion and validation. -/
inductive ParseErr (V : Type) where
  | invalidValue (type_name tok : String)
  | invalidChoice (value : V) (choices : List V)
deriving DecidableEq, Repr

/-- `_get_value(action, arg_string)`: run the conversion inside try/catch. -/
def _get_value {V : Type} (type_name : String) (type_func : String → Except Unit V)
    (arg_string : String) : Except (ParseErr V) V :=
  match type_func arg_string with
  | .ok v => .ok v
  | .error _ => .error (.invalidValue type_name arg_string)

/-- `_check_value(action, value)`: converted value must be in `choices`. -/
def _check_value {V : Type} [BEq V] (choices : Option (List V)) (value : V) :
    Except (ParseErr V) Unit :=
  match choices with
  | none => .ok ()
  | some cs =>
      if cs.contains value then .ok ()
      else .error (.invalidChoice value cs)

/-- C7: a throwing type conversion is caught and becomes the structured
"invalid `type` value: `token`" parse error (never the raw exception), and a
converted value outside the declared choices becomes the "invalid choice"
error carrying the allowed set. -/
theorem conversion_and_choice_failures_structured {V : Type} [DecidableEq V]
    (type_name : String) (type_func : String → Except Unit V) (tok : String)
    (cs : List V) (v : V) :
    (type_func tok = .error () →
      _get_value type_name type_func tok = .error (.invalidValue type_name tok))
    ∧ (v ∉ cs →
      _check_value (some cs) v = .error (.invalidChoice v cs)) := by
  constructor
  · intro h
    simp [_get_value, h]
  · intro h
    simp [_check_value, h]

/-- Witness for C7 at concrete inputs: a conversion to `Nat` that always
throws on `"abc"`, and the value 3 against choices `[1, 2]`. -/
theorem conversion_and_choice_failures_structured_witness :
    _get_value "int" (fun _ => (.error () : Except Unit Nat)) "abc"
      = .error (.invalidValue "int" "abc")
    ∧ _check_value (some [1, 2]) (3 : Nat) = .error (.invalidChoice 3 [1, 2]) :=
  ⟨(conversion_and_choice_failures_structured "int" (fun _ => .error ()) "abc" [1, 2] 3).1 rfl,
   (conversion_and_choice_failures_structured "int" (fun _ => .error ()) "abc" [1, 2] 3).2
     (by decide)⟩

/-! ### C8: `_StoreAction` construction (src/lib/actions/_StoreAction.js lines 9-42)

    if (nargs === 0) {
      throw new ValueError(`nargs for store actions must be > 0; ...`);
    }
    if (constant !== null && nargs !== OPTIONAL) {
      throw new ValueError(`nargs must be ... to supply const`);
    }
    super(option_strings, dest, nargs, constant, defaultValue, type, choices,
          required, help, metavar);

`ValueError` is the configuration-error type, distinct from the parse-time
`ArgumentError`. -/

/-- Configuration errors (programmer mistakes raised at registration time). -/
inductive ConfigErr where
  | valueError (msg : String)
deriving DecidableEq, Repr

/-- A successfully constructed value-storing action. -/
structure StoreAction (V : Type) where
  option_strings : List String
  dest : String
  nargs : Nargs
  const : Option V
  defaultValue : Option V
  required : Bool

/-- The `_StoreAction` constructor: `nargs === 0` is the integer 0, and
`constant !== null` is `constant ≠ none`. -/
def mkStoreAction {V : Type} [DecidableEq V] (option_strings : List String) (dest : String)
    (nargs : Nargs) (constant : Option V) (defaultValue : Option V)
    (required : Bool) : Except ConfigErr (StoreAction V) :=
  if nargs = .num 0 then
    .error (.valueError "nargs for store actions must be > 0")
  else if constant ≠ none ∧ nargs ≠ .optional then
    .error (.valueError "nargs must be ? to supply const")
  else
    .ok ⟨option_strings, dest, nargs, constant, defaultValue, required⟩

/-- C8: constructing a store action raises a configuration error exactly when
`nargs` is the integer 0 or a const value is supplied with `nargs` different
from NONE_OR_ONE, and every successfully constructed store action with a
const set has `nargs = NONE_OR_ONE`. -/
theorem store_action_validation {V : Type} [DecidableEq V] (os : List String) (d : String)
    (nargs : Nargs) (constant defaultValue : Option V) (req : Bool) :
    ((∃ e, mkStoreAction os d nargs constant defaultValue req = .error e)
        ↔ (nargs = .num 0 ∨ (constant ≠ none ∧ nargs ≠ .optional)))
    ∧ (∀ a : StoreAction V, mkStoreAction os d nargs constant defaultValue req = .ok a →
        a.const ≠ none → a.nargs = .optional) := by
  constructor
  · constructor
    · intro ⟨e, he⟩
      by_cases h0 : nargs = .num 0
      · exact Or.inl h0
      · right
        by_cases hbad : constant ≠ none ∧ nargs ≠ .optional
        · exact hbad
        · exfalso
          rw [mkStoreAction, if_neg h0, if_neg hbad] at he
          cases he
    · intro h
      cases h with
      | inl h0 =>
          refine ⟨.valueError "nargs for store actions must be > 0", ?_⟩
          rw [mkStoreAction, if_pos h0]
      | inr hco =>
          by_cases h0 : nargs = .num 0
          · refine ⟨.valueError "nargs for store actions must be > 0", ?_⟩
            rw [mkStoreAction, if_pos h0]
          · refine ⟨.valueError "nargs must be ? to supply const", ?_⟩
            rw [mkStoreAction, if_neg h0, if_pos hco]
  · intro a ha hc
    by_cases h0 : nargs = .num 0
    · rw [mkStoreAction, if_pos h0] at ha
      cases ha
    · by_cases hbad : constant ≠ none ∧ nargs ≠ .optional
      · rw [mkStoreAction, if_neg h0, if_pos hbad] at ha
        cases ha
      · rw [mkStoreAction, if_neg h0, if_neg hbad] at ha
        cases ha
        change constant ≠ none at hc
        change nargs = Nargs.optional
        by_cases hopt : nargs = Nargs.optional
        · exact hopt
        · exact absurd ⟨hc, hopt⟩ hbad

/-- Witness for C8 at concrete inputs: `nargs = 0` is rejected, and a
constructed action with a const has `nargs = NONE_OR_ONE`. -/
theorem store_action_validation_witness :
    (∃ e, mkStoreAction [] "d" (.num 0) (none : Option Nat) none false = .error e)
    ∧ (⟨["-x"], "x", .optional, some 5, none, false⟩ : StoreAction Nat).nargs = .optional :=
  ⟨(store_action_validation [] "d" (.num 0) (none : Option Nat) none false).1.mpr (Or.inl rfl),
   (store_action_validation ["-x"] "x" .optional (some 5) none false).2
     ⟨["-x"], "x", .optional, some 5, none, false⟩ rfl (by decide)⟩

/-! ### C9: argument-list defaulting in `parse_known_args`
(src/lib/ArgumentParser.js lines 204-208)

    parse_known_args(args = null, namespace = null) {
      if (!args || !args.length) {
        args = process.argv.slice(1);
      }
      ...

`!args` catches `null`, `!args.length` catches the empty array. -/

/-- The token list `parse_known_args` actually parses, given the caller's
`args` (`none` = null) and the current `process.argv`. -/
def effectiveArgs (args : Option (List String)) (process_argv : List String) :
    List String :=
  match args with
  | none => process_argv.drop 1
  | some l => if l.length = 0 then process_argv.drop 1 else l

/-- C9: a null argument list and an explicitly empty argument list are both
replaced by `process.argv` minus its first element, while a non-empty list is
parsed as given — so passing an empty list does not parse zero tokens. -/
theorem effective_args_substitution (process_argv l : List String) :
    effectiveArgs none process_argv = process_argv.drop 1
    ∧ effectiveArgs (some []) process_argv = process_argv.drop 1
    ∧ (l ≠ [] → effectiveArgs (some l) process_argv = l) := by
  refine ⟨rfl, rfl, ?_⟩
  intro h
  simp [effectiveArgs, h]

/-- Witness for C9 at concrete inputs. -/
theorem effective_args_substitution_witness :
    effectiveArgs none ["node", "a", "b"] = ["a", "b"]
    ∧ effectiveArgs (some []) ["node", "a", "b"] = ["a", "b"]
    ∧ effectiveArgs (some ["x"]) ["node", "a", "b"] = ["x"] :=
  ⟨(effective_args_substitution ["node", "a", "b"] ["x"]).1,
   (effective_args_substitution ["node", "a", "b"] ["x"]).2.1,
   (effective_args_substitution ["node", "a", "b"] ["x"]).2.2 (by decide)⟩

/-! ### C10: `set_default` (src/lib/_ActionsContainer.js lines 96-108)

    set_default(params) {
      Object.assign(this._defaults, params);
      this._actions = this._actions.map(action => {
        if (params[action.dest]) {
          action.default = params[action.dest];
        }
        return action;
      });
    }

`if (params[action.dest])` is a truthiness test: an absent dest reads
`undefined` (falsy), and a present-but-falsy value (0, "", false, null) also
skips the overwrite. -/

/-- A registered action as far as `set_default` touches it. -/
structure ActionRec where
  dest : String
  defaultValue : JsVal
deriving DecidableEq, Repr

/-- `set_default(params)`: the updated defaults map (`Object.assign`, params
taking precedence) and the updated action list. -/
def set_default (params defaults : List (String × JsVal))
    (actions : List ActionRec) : List (String × JsVal) × List ActionRec :=
  (params ++ defaults,
   actions.map fun a =>
     match params.lookup a.dest with
     | some v => if jsTruthy v then { a with defaultValue := v } else a
     | none => a)

/-- C10 counterexample: `set_default` with the falsy value 0 for dest `"x"`
leaves the registered action's default at 5 instead of overwriting it with 0,
though `"x"` appears in the map — refuting the claim that every
already-registered action whose dest appears in the map is overwritten. -/
theorem set_default_falsy_counterexample :
    (set_default [("x", JsVal.num 0)] [] [⟨"x", JsVal.num 5⟩]).2 = [⟨"x", JsVal.num 5⟩]
    ∧ (set_default [("x", JsVal.num 0)] [] [⟨"x", JsVal.num 5⟩]).2 ≠ [⟨"x", JsVal.num 0⟩] := by
  exact ⟨rfl, by decide⟩

/-- Looking a key up in the concatenation of two association lists finds the
first list's binding when present, the second list's otherwise. -/
theorem lookup_append (k : String) (xs ys : List (String × JsVal)) :
    List.lookup k (xs ++ ys) = (List.lookup k xs).orElse (fun _ => List.lookup k ys) := by
  induction xs with
  | nil => simp [Option.orElse]
  | cons p ps ih =>
      cases p with
      | mk a b =>
          cases hk : (k == a) with
          | true => simp [List.lookup, hk, Option.orElse]
          | false => simp [List.lookup, hk, ih]

/-- C10 amended: `set_default` records every param in the defaults map (params
take precedence over existing entries), overwrites the default of every
already-registered action whose dest maps to a truthy value, and leaves an
action unchanged when its dest is absent from the map or maps to a falsy
value. -/
theorem set_default_characterization (params defaults : List (String × JsVal))
    (actions : List ActionRec) (k : String) (i : Nat) (a : ActionRec)
    (ha : actions[i]? = some a) :
    ((set_default params defaults actions).1.lookup k
        = ((params.lookup k).orElse (fun _ => defaults.lookup k)))
    ∧ (∀ v, params.lookup a.dest = some v → jsTruthy v = true →
        (set_default params defaults actions).2[i]? = some { a with defaultValue := v })
    ∧ (params.lookup a.dest = none →
        (set_default params defaults actions).2[i]? = some a)
    ∧ (∀ v, params.lookup a.dest = some v → jsTruthy v = false →
        (set_default params defaults actions).2[i]? = some a) := by
  refine ⟨?_, ?_, ?_, ?_⟩
  · simpa [set_default] using lookup_append k params defaults
  · intro v hv htru
    simp [set_default, List.getElem?_map, ha, hv, htru]
  · intro hnone
    simp [set_default, List.getElem?_map, ha, hnone]
  · intro v hv hfal
    simp [set_default, List.getElem?_map, ha, hv, hfal]

/-- Witness for C10 at concrete inputs: a truthy value overwrites, an absent
dest and a falsy value leave the action unchanged. -/
theorem set_default_characterization_witness :
    (set_default [("x", JsVal.num 7)] [("y", JsVal.num 1)] [⟨"x", JsVal.num 5⟩]).1.lookup "x"
        = some (JsVal.num 7)
    ∧ (set_default [("x", JsVal.num 7)] [("y", JsVal.num 1)] [⟨"x", JsVal.num 5⟩]).2[0]?
        = some ⟨"x", JsVal.num 7⟩
    ∧ (set_default [("z", JsVal.num 7)] [] [⟨"x", JsVal.num 5⟩]).2[0]?
        = some ⟨"x", JsVal.num 5⟩
    ∧ (set_default [("x", JsVal.str "")] [] [⟨"x", JsVal.num 5⟩]).2[0]?
        = some ⟨"x", JsVal.num 5⟩ :=
  ⟨(set_default_characterization [("x", JsVal.num 7)] [("y", JsVal.num 1)]
      [⟨"x", JsVal.num 5⟩] "x" 0 ⟨"x", JsVal.num 5⟩ rfl).1,
   (set_default_characterization [("x", JsVal.num 7)] [("y", JsVal.num 1)]
      [⟨"x", JsVal.num 5⟩] "x" 0 ⟨"x", JsVal.num 5⟩ rfl).2.1 (JsVal.num 7) rfl rfl,
   (set_default_characterization [("z", JsVal.num 7)] []
      [⟨"x", JsVal.num 5⟩] "x" 0 ⟨"x", JsVal.num 5⟩ rfl).2.2.1 rfl,
   (set_default_characterization [("x", JsVal.str "")] []
      [⟨"x", JsVal.num 5⟩] "x" 0 ⟨"x", JsVal.num 5⟩ rfl).2.2.2 (JsVal.str "") rfl rfl⟩

end Argparse
